import Mathlib

/-!
Verification of the blob-recognition workflow core
(`app/domain.py`, `app/usecase.py`, `app/client.py`, `app/lambdas.py`).

The Python code is shallowly embedded: every use case class becomes a pure
Lean function; record-store writes (DynamoDB `put_item` / `update_item`)
are returned as an explicit, ordered list of `Effect`s; exceptions become
`Except` errors; external collaborators (URL validator, S3 presigner,
Rekognition, HTTP transport, the record store) are passed in as function
parameters, mirroring the dependency injection of the source.
-/

namespace Recognition

/-- The status enum of `app/domain.py::RecognitionStatus`. -/
inductive RecognitionStatus
  | waitingForUpload
  | uploadTimedOut
  | inProgress
  | invalidBlobHasBeenUploaded
  | tooLargeBlobHasBeenUploaded
  | success
  | failedDueToCallbackFailure
  | failedDueToCallbackTimeOut
  | failedDueToCallbackConnection
  | notFound
  | unexpectedError
  deriving DecidableEq, Repr

/-- The string `.value` of each enum member, exactly as in `app/domain.py`.
The store persists these strings and `usecase.py` compares against them. -/
def RecognitionStatus.value : RecognitionStatus → String
  | .waitingForUpload => "waiting-for-upload"
  | .uploadTimedOut => "upload-timed-out"
  | .inProgress => "in-progress"
  | .invalidBlobHasBeenUploaded => "invalid-blob-has-been-uploaded"
  | .tooLargeBlobHasBeenUploaded => "too-large-blob-has-been-uploaded"
  | .success => "success"
  | .failedDueToCallbackFailure => "failed-due-to-callback-failure"
  | .failedDueToCallbackTimeOut => "failed-due-to-callback-time-out"
  | .failedDueToCallbackConnection => "failed-due-to-callback-connection"
  | .notFound => "not-found"
  | .unexpectedError => "unexpected-error"

/-- The classified exceptions of `app/exception.py`, with the payload each
raise site attaches (`usecase.py`, `client.py`).  Unclassified
infrastructure errors are out of scope of every claim and are not modelled:
each embedded function's domain covers exactly the outcomes the code
distinguishes. -/
inductive RecognitionError
  | callbackUrlIsNotValid (callbackUrl : String)
  | blobWasNotFound (blobId : String) (status : String)
  | blobIsNotUploadedYet (blobId : String) (status : String)
  | blobUploadTimedOut (blobId : String) (status : String)
  | blobRecognitionIsInProgress (blobId : String) (status : String)
  | invalidBlobHasBeenUploaded (blobId : String)
  | tooLargeBlobHasBeenUploaded (blobId : String)
  | recognitionStepHasBeenFailed (blobId : String)
  deriving DecidableEq, Repr

/-- A label as persisted/transformed by `usecase.py::TransformLabels`.
`confidence` is whatever JSON value the code put there: the detection
service's number, or the `''` default when the field was missing. -/
inductive ConfidenceValue
  | num (q : ℚ)
  | str (s : String)
  deriving DecidableEq, Repr

/-- One transformed label (`{'label': .., 'confidence': .., 'parents': ..}`). -/
structure Label where
  label : String
  confidence : ConfidenceValue
  parents : List String
  deriving DecidableEq, Repr

/-- A record-store write, in the order the code issues it.  `createRecord`
is `BlobDynamoDBClient.create`, `updateStatus` is
`BlobDynamoDBClient.update_status` (an unconditional `SET #status = :status`
with no ConditionExpression), `saveLabels` is
`BlobDynamoDBClient.save_labels`; `launchWorkflow` is
`BlobStepFunctionClient.launch` and `generatePresignedUrl` is
`BlobS3Client.generate_presigned_url`. -/
inductive Effect
  | createRecord (blobId : String) (callbackUrl : String) (status : String)
  | launchWorkflow (blobId : String)
  | generatePresignedUrl (blobId : String)
  | updateStatus (blobId : String) (status : String)
  | saveLabels (blobId : String) (labels : List Label)
  deriving DecidableEq, Repr

/-- The blob record as returned by `BlobDynamoDBClient.get_blob`:
`status` is the stored string. -/
structure BlobRecord where
  blobId : String
  callbackUrl : String
  status : String
  labels : List Label
  deriving DecidableEq, Repr

/-- `dto.py::UploadInitializingResult`. -/
structure UploadInitializingResult where
  blobId : String
  uploadUrl : String
  callbackUrl : String
  deriving DecidableEq, Repr

/-- `dto.py::RecognitionStepFunctionResult`, parametric in the labels
payload: `GetLabels` forwards the raw detection response, the later steps
forward transformed labels. -/
structure RecognitionStepFunctionResult (α : Type) where
  blobId : String
  labels : α
  deriving DecidableEq, Repr

/-- `dto.py::BlobRecognitionResult` (the `get_result` success shape and the
callback POST body). -/
structure BlobRecognitionResult where
  blobId : String
  labels : List Label
  deriving DecidableEq, Repr

/-- `usecase.py::InitializeUploadListening.__call__`: validate the callback
url first (raising `CallbackUrlIsNotValid` with the url in the payload
before any side effect), then create the record with status
WAITING_FOR_UPLOAD, then launch the uploading step function, then generate
the presigned url, and return the result DTO.  `isValidUrl` embeds the
injected `UrlValidator.is_valid_url` and `presign` the injected
`BlobS3Client.generate_presigned_url`. -/
def InitializeUploadListening.call (isValidUrl : String → Bool)
    (presign : String → String) (blobId : String) (callbackUrl : String) :
    List Effect × Except RecognitionError UploadInitializingResult :=
  if isValidUrl callbackUrl then
    ([Effect.createRecord blobId callbackUrl RecognitionStatus.waitingForUpload.value,
      Effect.launchWorkflow blobId,
      Effect.generatePresignedUrl blobId],
     Except.ok ⟨blobId, presign blobId, callbackUrl⟩)
  else
    ([], Except.error (RecognitionError.callbackUrlIsNotValid callbackUrl))

/-- The record-level meaning of `BlobDynamoDBClient.update_status`
(`client.py`): an unconditional `SET #status = :status` on the item —
there is no ConditionExpression, so it overwrites whatever status is
stored. -/
def BlobDynamoDBClient.update_status (r : BlobRecord) (status : String) : BlobRecord :=
  { r with status := status }

/-- `usecase.py::CheckUploading.__call__` as a transformer of the blob's
record: if `is_uploaded` returns true, return without touching the store;
otherwise `update_status(blob_id, UPLOAD_TIMED_OUT)`. -/
def CheckUploading.call (uploaded : Bool) (r : BlobRecord) : BlobRecord :=
  if uploaded then r
  else BlobDynamoDBClient.update_status r RecognitionStatus.uploadTimedOut.value

/-- `usecase.py::StartRecognition.__call__` restricted to its store write:
`update_status(blob_id, IN_PROGRESS)` (the subsequent step-function launch
does not touch the record). -/
def StartRecognition.call (r : BlobRecord) : BlobRecord :=
  BlobDynamoDBClient.update_status r RecognitionStatus.inProgress.value

/-- The status-touching operations an orchestration can replay against one
blob's record after initialisation: a watchdog firing (with the outcome of
the S3 existence check) or the upload-event-triggered StartRecognition. -/
inductive BlobOp
  | checkUploading (uploaded : Bool)
  | startRecognition
  deriving DecidableEq, Repr

/-- Applying one operation to the record. -/
def applyOp : BlobOp → BlobRecord → BlobRecord
  | .checkUploading uploaded, r => CheckUploading.call uploaded r
  | .startRecognition, r => StartRecognition.call r

/-- Running a sequence of operations left to right. -/
def runOps : List BlobOp → BlobRecord → BlobRecord
  | [], r => r
  | op :: ops, r => runOps ops (applyOp op r)

/-- The raw shape of one parent entry in a detection (`{'Name': ...}`,
possibly missing). -/
structure RawParent where
  name : Option String
  deriving DecidableEq, Repr

/-- One raw detection from the labeling service: `Name`, `Confidence` and
`Parents` keys, each possibly absent. -/
structure RawLabel where
  name : Option String
  confidence : Option ℚ
  parents : Option (List RawParent)
  deriving DecidableEq, Repr

/-- The raw detection response: a dict whose `Labels` key, when present,
holds the detection list. -/
structure RawLabelsData where
  labels : Option (List RawLabel)
  deriving DecidableEq, Repr

/-- The three outcomes of the underlying Rekognition `detect_labels` call
that `client.py::BlobRekognitionClient.detect_labels` distinguishes. -/
inductive DetectOutcome
  | ok (raw : RawLabelsData)
  | invalidImageFormat
  | imageTooLarge
  deriving DecidableEq, Repr

/-- `client.py::BlobRekognitionClient.detect_labels`: forwards the
response, turning `InvalidImageFormatException` into
`InvalidBlobHasBeenUploaded` and `ImageTooLargeException` into
`TooLargeBlobHasBeenUploaded`, each with payload `{'blob_id': blob_id}`. -/
def BlobRekognitionClient.detect_labels (outcome : DetectOutcome)
    (blobId : String) : Except RecognitionError RawLabelsData :=
  match outcome with
  | .ok raw => Except.ok raw
  | .invalidImageFormat =>
      Except.error (RecognitionError.invalidBlobHasBeenUploaded blobId)
  | .imageTooLarge =>
      Except.error (RecognitionError.tooLargeBlobHasBeenUploaded blobId)

/-- `usecase.py::GetLabels.__call__` as written in the source: it calls
`detect_labels` and wraps a successful response into the step result; it
installs no exception handler, performs no store write, and raises no
`RecognitionStepHasBeenFailed` — a classified detection error simply
propagates.  The first component lists the store writes made (none on any
path). -/
def GetLabels.call (outcome : DetectOutcome) (blobId : String) :
    List Effect × Except RecognitionError (RecognitionStepFunctionResult RawLabelsData) :=
  match BlobRekognitionClient.detect_labels outcome blobId with
  | .ok raw => ([], Except.ok ⟨blobId, raw⟩)
  | .error e => ([], Except.error e)

/-- `usecase.py::TransformLabels._transform` on one detection:
`label.get('Name', '')`, `label.get('Confidence', '')` and
`[parent.get('Name', '') for parent in label.get('Parents', {})]`. -/
def TransformLabels.transformOne (l : RawLabel) : Label :=
  { label := l.name.getD ""
    confidence := match l.confidence with
      | some q => ConfidenceValue.num q
      | none => ConfidenceValue.str ""
    parents := match l.parents with
      | some ps => ps.map (fun p => p.name.getD "")
      | none => [] }

/-- `usecase.py::TransformLabels._transform`:
`labels = raw_labels_data.get('Labels')` followed by a comprehension over
`labels`.  When the `Labels` key is absent, `get` yields `None` and the
comprehension raises `TypeError` — embedded as `none`. -/
def TransformLabels.transform (raw : RawLabelsData) : Option (List Label) :=
  match raw.labels with
  | none => none
  | some ls => some (ls.map TransformLabels.transformOne)

/-- `usecase.py::TransformLabels.__call__`. -/
def TransformLabels.call (blobId : String) (raw : RawLabelsData) :
    Option (RecognitionStepFunctionResult (List Label)) :=
  (TransformLabels.transform raw).map (fun labels => ⟨blobId, labels⟩)

/-- `usecase.py::SaveLabels.__call__`: one `save_labels` store write, then
the step result echoing the inputs. -/
def SaveLabels.call (blobId : String) (labels : List Label) :
    List Effect × RecognitionStepFunctionResult (List Label) :=
  ([Effect.saveLabels blobId labels], ⟨blobId, labels⟩)

/-- The outcomes of the `requests.post` call that
`usecase.py::Invoker.invoke` distinguishes: a response with some status
code, a `ConnectTimeout`, or a `ConnectionError`. -/
inductive HttpOutcome
  | response (statusCode : Nat)
  | connectTimeout
  | connectionError
  deriving DecidableEq, Repr

/-- `usecase.py::Invoker.invoke`: 204 → SUCCESS (0); any other response →
CALLBACK_FAILURE (1); ConnectTimeout → CONNECTION_TIMEOUT (2);
ConnectionError → CONNECTION_ERROR (3). -/
def Invoker.invoke (outcome : HttpOutcome) : Nat :=
  match outcome with
  | .response code => if code = 204 then 0 else 1
  | .connectTimeout => 2
  | .connectionError => 3

/-- `usecase.py::InvokeCallback.__call__`: fetch the blob (crashing on a
missing record, embedded as `none`), POST `{blob_id, labels}` to its
`callback_url` (`http` embeds the transport's outcome for a given url and
body), dispatch on the invoker's code through the if/elif ladder writing
the corresponding status, and return the step result. -/
def InvokeCallback.call (http : String → BlobRecognitionResult → HttpOutcome)
    (store : String → Option BlobRecord) (blobId : String) (labels : List Label) :
    Option (List Effect × RecognitionStepFunctionResult (List Label)) :=
  match store blobId with
  | none => none
  | some blob =>
      let status := Invoker.invoke (http blob.callbackUrl ⟨blobId, labels⟩)
      let effects :=
        if status = 0 then
          [Effect.updateStatus blobId RecognitionStatus.success.value]
        else if status = 1 then
          [Effect.updateStatus blobId RecognitionStatus.failedDueToCallbackFailure.value]
        else if status = 2 then
          [Effect.updateStatus blobId RecognitionStatus.failedDueToCallbackTimeOut.value]
        else if status = 3 then
          [Effect.updateStatus blobId RecognitionStatus.failedDueToCallbackConnection.value]
        else []
      some (effects, ⟨blobId, labels⟩)

/-- `usecase.py::GetRecognitionResult.__call__` as written in the source:
not-found, WAITING_FOR_UPLOAD, UPLOAD_TIMED_OUT and IN_PROGRESS each raise
their classified error with payload `{'blob_id', 'status'}`; every other
stored status falls through to returning `BlobRecognitionResult(blob_id,
labels)` — the if/elif ladder has no branch for
INVALID_BLOB_HAS_BEEN_UPLOADED or TOO_LARGE_BLOB_HAS_BEEN_UPLOADED. -/
def GetRecognitionResult.call (store : String → Option BlobRecord)
    (blobId : String) : Except RecognitionError BlobRecognitionResult :=
  match store blobId with
  | none =>
      Except.error (RecognitionError.blobWasNotFound blobId
        RecognitionStatus.notFound.value)
  | some blob =>
      if blob.status = RecognitionStatus.waitingForUpload.value then
        Except.error (RecognitionError.blobIsNotUploadedYet blobId blob.status)
      else if blob.status = RecognitionStatus.uploadTimedOut.value then
        Except.error (RecognitionError.blobUploadTimedOut blobId blob.status)
      else if blob.status = RecognitionStatus.inProgress.value then
        Except.error (RecognitionError.blobRecognitionIsInProgress blobId blob.status)
      else
        Except.ok ⟨blobId, blob.labels⟩

/-- The event consumed by the unexpected-error fallback lambda: its
`ExecutionName` key, possibly absent. -/
structure FallbackEvent where
  executionName : Option String
  deriving DecidableEq, Repr

/-- Modelled from the spec: `usecase.py` defines no `HandleUnexpectedError`
even though `container.py` imports and wires one; per §4.3 the fallback
"sets status to `UNEXPECTED_ERROR`-equivalent terminal state", so the use
case is one `update_status(blob_id, UNEXPECTED_ERROR)` write. -/
def HandleUnexpectedError.call (blobId : String) : List Effect :=
  [Effect.updateStatus blobId RecognitionStatus.unexpectedError.value]

/-- `lambdas.py::UnexpectedErrorFallbackHandler.handle`:
`blob_id = event.get('ExecutionName')`; return without any write when it is
`None`, otherwise run the handle-unexpected-error use case. -/
def UnexpectedErrorFallbackHandler.handle (e : FallbackEvent) : List Effect :=
  match e.executionName with
  | none => []
  | some blobId => HandleUnexpectedError.call blobId

/-- C1: evaluated at the failing inputs, the `GetLabels` step of the source
propagates the classified detection errors untouched: it performs no
status write (effect list empty, so neither INVALID_BLOB_UPLOADED nor
TOO_LARGE_BLOB_UPLOADED is stored) and raises the classified error itself
rather than the terminal `RecognitionStepHasBeenFailed` signal, contrary
to the claim (and to the repository's own tests). -/
theorem getLabels_propagates_classified_error_without_status_write :
    GetLabels.call DetectOutcome.invalidImageFormat "blob_id" =
      ([], Except.error (RecognitionError.invalidBlobHasBeenUploaded "blob_id")) ∧
    GetLabels.call DetectOutcome.imageTooLarge "blob_id" =
      ([], Except.error (RecognitionError.tooLargeBlobHasBeenUploaded "blob_id")) :=
  ⟨rfl, rfl⟩

/-- C2: evaluated at stored records whose status is
INVALID_BLOB_HAS_BEEN_UPLOADED (resp. TOO_LARGE_BLOB_HAS_BEEN_UPLOADED),
`get_result` of the source returns `{blob_id, labels}` instead of failing
with the corresponding upload-validation error: its if/elif ladder has no
branch for either status, so both fall through to the success return,
contrary to the claim (and to the repository's own tests, which assert
`InvalidBlobHasBeenUploaded` / `TooLargeBlobHasBeenUploaded` are raised). -/
theorem getResult_returns_ok_for_invalid_upload_statuses :
    GetRecognitionResult.call
      (fun i => if i = "blob_id" then
        some ⟨"blob_id", "http://cb", RecognitionStatus.invalidBlobHasBeenUploaded.value, []⟩
        else none) "blob_id" = Except.ok ⟨"blob_id", []⟩ ∧
    GetRecognitionResult.call
      (fun i => if i = "blob_id" then
        some ⟨"blob_id", "http://cb", RecognitionStatus.tooLargeBlobHasBeenUploaded.value, []⟩
        else none) "blob_id" = Except.ok ⟨"blob_id", []⟩ :=
  ⟨rfl, rfl⟩

/-- C3 counterexample: starting from a freshly created record in
WAITING_FOR_UPLOAD, the reachable sequence "watchdog fires with the object
absent, then a late upload triggers StartRecognition" first stores
UPLOAD_TIMED_OUT and then overwrites it with IN_PROGRESS — so
UPLOAD_TIMED_OUT is not terminal, refuting the claim at a concrete
sequence of operations. -/
theorem uploadTimedOut_is_overwritten_by_late_startRecognition :
    (applyOp (BlobOp.checkUploading false)
        ⟨"blob_id", "http://cb", RecognitionStatus.waitingForUpload.value, []⟩).status =
      RecognitionStatus.uploadTimedOut.value ∧
    (runOps [BlobOp.checkUploading false, BlobOp.startRecognition]
        ⟨"blob_id", "http://cb", RecognitionStatus.waitingForUpload.value, []⟩).status =
      RecognitionStatus.inProgress.value ∧
    RecognitionStatus.inProgress.value ≠ RecognitionStatus.uploadTimedOut.value :=
  ⟨rfl, rfl, by decide⟩

/-- C3 amended: `update_status` is an unconditional write (no
compare-and-set), so while the watchdog itself never moves a record out of
UPLOAD_TIMED_OUT (it is a no-op when the object exists and rewrites the
same status otherwise), a later StartRecognition overwrites any stored
status — including UPLOAD_TIMED_OUT — with IN_PROGRESS. -/
theorem watchdog_preserves_timeout_but_startRecognition_overwrites (r : BlobRecord) :
    (∀ b : Bool, r.status = RecognitionStatus.uploadTimedOut.value →
      (applyOp (BlobOp.checkUploading b) r).status = RecognitionStatus.uploadTimedOut.value) ∧
    (applyOp BlobOp.startRecognition r).status = RecognitionStatus.inProgress.value := by
  constructor
  · intro b h
    cases b
    · simp [applyOp, CheckUploading.call, BlobDynamoDBClient.update_status]
    · simpa [applyOp, CheckUploading.call] using h
  · rfl

/-- C3 amended, witness at a concrete timed-out record. -/
theorem watchdog_preserves_timeout_but_startRecognition_overwrites_witness :
    (applyOp (BlobOp.checkUploading false)
        ⟨"blob_id", "http://cb", RecognitionStatus.uploadTimedOut.value, []⟩).status =
      RecognitionStatus.uploadTimedOut.value ∧
    (applyOp BlobOp.startRecognition
        ⟨"blob_id", "http://cb", RecognitionStatus.uploadTimedOut.value, []⟩).status =
      RecognitionStatus.inProgress.value :=
  ⟨(watchdog_preserves_timeout_but_startRecognition_overwrites _).1 false rfl,
   (watchdog_preserves_timeout_but_startRecognition_overwrites _).2⟩

/-- C4 counterexample: on a raw detection input without a `Labels` key,
`TransformLabels` fails (the source iterates over
`raw_labels_data.get('Labels')`, which is `None`), refuting "for every raw
detection input it never fails". -/
theorem transformLabels_fails_on_missing_labels_key :
    TransformLabels.call "blob_id" ⟨none⟩ = none :=
  rfl

/-- C4 amended: on every raw input that does carry a `Labels` list,
`TransformLabels` succeeds; the claimed concrete input
`{Labels:[{Name:"foo", Confidence:100, Parents:[{Name:"bar"}]}]}` produces
`[{label:"foo", confidence:100, parents:["bar"]}]`; and a detection with
`Name`, `Confidence` and `Parents` all missing maps to
`{label:"", confidence:"", parents:[]}`. -/
theorem transformLabels_total_given_labels_key :
    (∀ (blobId : String) (raw : RawLabelsData), raw.labels.isSome →
      (TransformLabels.call blobId raw).isSome) ∧
    TransformLabels.call "blob_id" ⟨some [⟨some "foo", some 100, some [⟨some "bar"⟩]⟩]⟩ =
      some ⟨"blob_id", [⟨"foo", ConfidenceValue.num 100, ["bar"]⟩]⟩ ∧
    TransformLabels.transformOne ⟨none, none, none⟩ = ⟨"", ConfidenceValue.str "", []⟩ := by
  refine ⟨?_, by decide, rfl⟩
  intro blobId raw h
  cases hl : raw.labels
  · rw [hl] at h
    exact absurd h (by simp)
  · simp [TransformLabels.call, TransformLabels.transform, hl]

/-- C4 amended, witness instantiating the totality conjunct at the claimed
concrete input. -/
theorem transformLabels_total_given_labels_key_witness :
    (TransformLabels.call "blob_id"
      ⟨some [⟨some "foo", some 100, some [⟨some "bar"⟩]⟩]⟩).isSome ∧
    TransformLabels.transformOne ⟨none, none, none⟩ = ⟨"", ConfidenceValue.str "", []⟩ :=
  ⟨transformLabels_total_given_labels_key.1 "blob_id"
      ⟨some [⟨some "foo", some 100, some [⟨some "bar"⟩]⟩]⟩ (by decide),
   transformLabels_total_given_labels_key.2.2⟩

/-- Refinement reference, following the spec's words (§4.3 table): the
status assigned to each observed callback outcome — HTTP 204 → SUCCESS, any
other HTTP status → FAILED_CALLBACK_FAILURE, connect timeout →
FAILED_CALLBACK_TIMEOUT, connection refused/unreachable →
FAILED_CALLBACK_CONNECTION. -/
def callbackStatusSpec : HttpOutcome → RecognitionStatus
  | .response code =>
      if code = 204 then RecognitionStatus.success
      else RecognitionStatus.failedDueToCallbackFailure
  | .connectTimeout => RecognitionStatus.failedDueToCallbackTimeOut
  | .connectionError => RecognitionStatus.failedDueToCallbackConnection

/-- C5: for every callback invocation against an existing record,
`InvokeCallback` writes exactly one status, and it is the one the spec's
classification table assigns to the observed outcome: 204 → SUCCESS, other
HTTP status → FAILED_CALLBACK_FAILURE, connect timeout →
FAILED_CALLBACK_TIMEOUT, connection error → FAILED_CALLBACK_CONNECTION. -/
theorem invokeCallback_writes_exactly_the_classified_status
    (http : String → BlobRecognitionResult → HttpOutcome)
    (store : String → Option BlobRecord) (blobId : String) (labels : List Label)
    (blob : BlobRecord) (hs : store blobId = some blob) :
    InvokeCallback.call http store blobId labels =
      some ([Effect.updateStatus blobId
              (callbackStatusSpec (http blob.callbackUrl ⟨blobId, labels⟩)).value],
            ⟨blobId, labels⟩) := by
  unfold InvokeCallback.call
  rw [hs]
  cases houtcome : http blob.callbackUrl ⟨blobId, labels⟩ with
  | response code =>
      by_cases h204 : code = 204
      · simp [Invoker.invoke, callbackStatusSpec, houtcome, h204]
      · simp [Invoker.invoke, callbackStatusSpec, houtcome, h204]
  | connectTimeout => simp [Invoker.invoke, callbackStatusSpec, houtcome]
  | connectionError => simp [Invoker.invoke, callbackStatusSpec, houtcome]

/-- C5, witness: a concrete store holding one record and a transport
answering HTTP 204 yields exactly one SUCCESS status write. -/
theorem invokeCallback_writes_exactly_the_classified_status_witness :
    InvokeCallback.call (fun _ _ => HttpOutcome.response 204)
      (fun i => if i = "blob_id" then
        some ⟨"blob_id", "http://cb", RecognitionStatus.inProgress.value, []⟩ else none)
      "blob_id" [] =
      some ([Effect.updateStatus "blob_id" RecognitionStatus.success.value], ⟨"blob_id", []⟩) :=
  invokeCallback_writes_exactly_the_classified_status
    (fun _ _ => HttpOutcome.response 204) _ "blob_id" []
    ⟨"blob_id", "http://cb", RecognitionStatus.inProgress.value, []⟩ rfl

/-- C6: for every stored record whose status is SUCCESS or one of the
FAILED_DUE_TO_CALLBACK_* statuses, `get_result` returns
`{blob_id, labels}` unconditionally — none of the four completed statuses
matches any of the failing branches, so the persisted labels are always
visible. -/
theorem getResult_returns_labels_for_completed_statuses
    (store : String → Option BlobRecord) (blobId : String) (blob : BlobRecord)
    (hs : store blobId = some blob)
    (h : blob.status = RecognitionStatus.success.value ∨
         blob.status = RecognitionStatus.failedDueToCallbackFailure.value ∨
         blob.status = RecognitionStatus.failedDueToCallbackTimeOut.value ∨
         blob.status = RecognitionStatus.failedDueToCallbackConnection.value) :
    GetRecognitionResult.call store blobId = Except.ok ⟨blobId, blob.labels⟩ := by
  unfold GetRecognitionResult.call
  rw [hs]
  rcases h with h | h | h | h <;>
    simp [h, RecognitionStatus.value]

/-- C6, witness: a record stored with a FAILED_DUE_TO_CALLBACK_FAILURE
status still yields its labels. -/
theorem getResult_returns_labels_for_completed_statuses_witness :
    GetRecognitionResult.call
      (fun i => if i = "blob_id" then
        some ⟨"blob_id", "http://cb", RecognitionStatus.failedDueToCallbackFailure.value,
              [⟨"foo", ConfidenceValue.num 100, ["bar"]⟩]⟩ else none)
      "blob_id" = Except.ok ⟨"blob_id", [⟨"foo", ConfidenceValue.num 100, ["bar"]⟩]⟩ :=
  getResult_returns_labels_for_completed_statuses _ "blob_id"
    ⟨"blob_id", "http://cb", RecognitionStatus.failedDueToCallbackFailure.value,
     [⟨"foo", ConfidenceValue.num 100, ["bar"]⟩]⟩ rfl (Or.inr (Or.inl rfl))

/-- C7: whenever the injected validator rejects the callback url,
`initiate` fails with `CallbackUrlIsNotValid` carrying the offending url
as payload and issues no store write, workflow launch or upload-slot
request — the effect list is empty because validation runs before every
side effect. -/
theorem initiate_rejects_invalid_url_without_side_effects
    (isValidUrl : String → Bool) (presign : String → String)
    (blobId : String) (callbackUrl : String) (h : isValidUrl callbackUrl = false) :
    InitializeUploadListening.call isValidUrl presign blobId callbackUrl =
      ([], Except.error (RecognitionError.callbackUrlIsNotValid callbackUrl)) := by
  simp [InitializeUploadListening.call, h]

/-- C7, witness: a validator rejecting everything, applied to the spec's
example "foobar". -/
theorem initiate_rejects_invalid_url_without_side_effects_witness :
    InitializeUploadListening.call (fun _ => false) (fun _ => "url") "blob_id" "foobar" =
      ([], Except.error (RecognitionError.callbackUrlIsNotValid "foobar")) :=
  initiate_rejects_invalid_url_without_side_effects (fun _ => false)
    (fun _ => "url") "blob_id" "foobar" rfl

/-- C8: whenever the injected validator accepts the callback url,
`initiate` succeeds, and its side effects are, in order: create the record
with status WAITING_FOR_UPLOAD, launch the uploading workflow, generate
the presigned upload url; it returns `{blob_id, upload_url, callback_url}`. -/
theorem initiate_creates_record_launches_and_issues_slot_in_order
    (isValidUrl : String → Bool) (presign : String → String)
    (blobId : String) (callbackUrl : String) (h : isValidUrl callbackUrl = true) :
    InitializeUploadListening.call isValidUrl presign blobId callbackUrl =
      ([Effect.createRecord blobId callbackUrl RecognitionStatus.waitingForUpload.value,
        Effect.launchWorkflow blobId,
        Effect.generatePresignedUrl blobId],
       Except.ok ⟨blobId, presign blobId, callbackUrl⟩) := by
  simp [InitializeUploadListening.call, h]

/-- C8, witness: a validator accepting everything, applied to a concrete
http url. -/
theorem initiate_creates_record_launches_and_issues_slot_in_order_witness :
    InitializeUploadListening.call (fun _ => true) (fun i => String.append i "-slot")
      "blob_id" "http://foo.bar" =
      ([Effect.createRecord "blob_id" "http://foo.bar" RecognitionStatus.waitingForUpload.value,
        Effect.launchWorkflow "blob_id",
        Effect.generatePresignedUrl "blob_id"],
       Except.ok ⟨"blob_id", "blob_id-slot", "http://foo.bar"⟩) :=
  initiate_creates_record_launches_and_issues_slot_in_order (fun _ => true)
    (fun i => String.append i "-slot") "blob_id" "http://foo.bar" rfl

/-- C9: the unexpected-error fallback entry point is a no-op (no store
write) when the event carries no resolvable ExecutionName, and performs
exactly one status write — to UNEXPECTED_ERROR — when it does. -/
theorem fallback_writes_unexpectedError_iff_blobId_resolved (e : FallbackEvent) :
    (e.executionName = none → UnexpectedErrorFallbackHandler.handle e = []) ∧
    (∀ blobId : String, e.executionName = some blobId →
      UnexpectedErrorFallbackHandler.handle e =
        [Effect.updateStatus blobId RecognitionStatus.unexpectedError.value]) := by
  constructor
  · intro h
    simp [UnexpectedErrorFallbackHandler.handle, h]
  · intro blobId h
    simp [UnexpectedErrorFallbackHandler.handle, h, HandleUnexpectedError.call]

/-- C9, witness: both branches at concrete events. -/
theorem fallback_writes_unexpectedError_iff_blobId_resolved_witness :
    UnexpectedErrorFallbackHandler.handle ⟨none⟩ = [] ∧
    UnexpectedErrorFallbackHandler.handle ⟨some "blob_id"⟩ =
      [Effect.updateStatus "blob_id" RecognitionStatus.unexpectedError.value] :=
  ⟨(fallback_writes_unexpectedError_iff_blobId_resolved ⟨none⟩).1 rfl,
   (fallback_writes_unexpectedError_iff_blobId_resolved ⟨some "blob_id"⟩).2 "blob_id" rfl⟩

/-- C10: every pipeline step that returns a step result echoes the
`blob_id` it received: GetLabels (on a successful detection),
TransformLabels (when it returns), SaveLabels, and InvokeCallback (when
the record exists) all produce a result whose blob_id equals the input. -/
theorem step_results_preserve_blob_id :
    (∀ (outcome : DetectOutcome) (blobId : String) (effs : List Effect)
        (r : RecognitionStepFunctionResult RawLabelsData),
      GetLabels.call outcome blobId = (effs, Except.ok r) → r.blobId = blobId) ∧
    (∀ (blobId : String) (raw : RawLabelsData)
        (r : RecognitionStepFunctionResult (List Label)),
      TransformLabels.call blobId raw = some r → r.blobId = blobId) ∧
    (∀ (blobId : String) (labels : List Label),
      (SaveLabels.call blobId labels).2.blobId = blobId) ∧
    (∀ (http : String → BlobRecognitionResult → HttpOutcome)
        (store : String → Option BlobRecord) (blobId : String) (labels : List Label)
        (out : List Effect × RecognitionStepFunctionResult (List Label)),
      InvokeCallback.call http store blobId labels = some out → out.2.blobId = blobId) := by
  refine ⟨?_, ?_, ?_, ?_⟩
  · intro outcome blobId effs r h
    cases outcome <;>
      simp [GetLabels.call, BlobRekognitionClient.detect_labels] at h
    rw [← h.2]
  · intro blobId raw r h
    cases hl : raw.labels <;>
      simp [TransformLabels.call, TransformLabels.transform, hl] at h
    rw [← h]
  · intro blobId labels
    rfl
  · intro http store blobId labels out h
    cases hs : store blobId <;>
      simp only [InvokeCallback.call, hs, Option.some.injEq, reduceCtorEq] at h
    subst h
    rfl

/-- C10, witness: each conjunct instantiated at a concrete input. -/
theorem step_results_preserve_blob_id_witness :
    (⟨"blob_id", RawLabelsData.mk (some [])⟩ :
        RecognitionStepFunctionResult RawLabelsData).blobId = "blob_id" ∧
    (⟨"blob_id", ([] : List Label)⟩ :
        RecognitionStepFunctionResult (List Label)).blobId = "blob_id" ∧
    (SaveLabels.call "blob_id" []).2.blobId = "blob_id" ∧
    (⟨[Effect.updateStatus "blob_id" RecognitionStatus.success.value],
      ⟨"blob_id", ([] : List Label)⟩⟩ :
        List Effect × RecognitionStepFunctionResult (List Label)).2.blobId = "blob_id" :=
  ⟨step_results_preserve_blob_id.1 (DetectOutcome.ok ⟨some []⟩) "blob_id" [] _ rfl,
   step_results_preserve_blob_id.2.1 "blob_id" ⟨some []⟩ _ rfl,
   step_results_preserve_blob_id.2.2.1 "blob_id" [],
   step_results_preserve_blob_id.2.2.2 (fun _ _ => HttpOutcome.response 204)
     (fun i => if i = "blob_id" then
       some ⟨"blob_id", "http://cb", RecognitionStatus.inProgress.value, []⟩ else none)
     "blob_id" [] _ rfl⟩

end Recognition
